import Mathlib

/-!
# Verification of the SCORCHED facility-mapping / filing-intelligence scripts

Shallow embedding of the Python sources under `src/` and proofs of the
specification claims about them.

Conventions:
* Machine floats holding geographic coordinates and distances are modelled as
  exact rationals (`ℚ`); the statements about ordering, counting and cache
  behaviour do not depend on floating-point rounding.
* Python dictionaries with string keys are modelled as association lists
  (`List (String × _)`, lookup-first semantics; the embedded literal tables
  have pairwise distinct keys, matching `dict` semantics) or as functions
  `String → Option _` where the dictionary is mutated.
* `geopy.distance.geodesic` is an external library call; the claims proved
  about `calculate_distances` hold for every distance function, so the
  embedding is parameterised by `dist : Coord → Coord → ℚ`.
* Python's `sorted` is a stable sort; it is embedded as `List.insertionSort`,
  which is extensionally equal to every stable sort by the key order.
-/

/-- A latitude/longitude pair (the `{'lat': .., 'lng': ..}` dictionaries). -/
structure Coord where
  lat : ℚ
  lng : ℚ
deriving DecidableEq, Repr

/-- A facility row as used by `calculate_distances`: factory name plus the
resolved coordinates (`Factory Name`, `latitude`, `longitude`). -/
structure Fac where
  name : String
  coord : Coord
deriving DecidableEq, Repr

/-- One element of the list built by `calculate_distances`
(`src/generate_facility_map_offline.py` lines 246-268 and
`src/generate_facility_map.py` lines 127-149): the dictionary with keys
`facility1`, `facility2`, `lat1`, `lng1`, `lat2`, `lng2`, `distance_km`,
`type1`, `type2`. -/
structure DistEntry where
  facility1 : String
  facility2 : String
  lat1 : ℚ
  lng1 : ℚ
  lat2 : ℚ
  lng2 : ℚ
  distance_km : ℚ
  type1 : String
  type2 : String
deriving DecidableEq, Repr

/-- The inner double loop of `calculate_distances`: for each row of `df1`
(in order) and each row of `df2` (in order) append one entry.  This is the
original (A-index, B-index) enumeration order. -/
def pairEntries (dist : Coord → Coord → ℚ) (A B : List Fac) : List DistEntry :=
  A.flatMap fun a =>
    B.map fun b =>
      { facility1 := a.name
        facility2 := b.name
        lat1 := a.coord.lat
        lng1 := a.coord.lng
        lat2 := b.coord.lat
        lng2 := b.coord.lng
        distance_km := dist a.coord b.coord
        type1 := "FINISHED GOODS"
        type2 := "FINISHED GOODS - COMPONENTS" }

/-- Comparison used by `sorted(distances, key=lambda x: x['distance_km'])`. -/
def entryLe (x y : DistEntry) : Prop :=
  x.distance_km ≤ y.distance_km

instance : DecidableRel entryLe := fun x y =>
  inferInstanceAs (Decidable (x.distance_km ≤ y.distance_km))

instance : IsTotal DistEntry entryLe :=
  ⟨fun a b => le_total a.distance_km b.distance_km⟩

instance : IsTrans DistEntry entryLe :=
  ⟨fun _ _ _ h1 h2 => le_trans h1 h2⟩

/-- `OfflineFacilityMapper.calculate_distances` /
`FacilityMapper.calculate_distances`: build all m×n entries, then sort them
by `distance_km` with Python's stable `sorted` (embedded as the stable
`List.insertionSort`). -/
def calculate_distances (dist : Coord → Coord → ℚ) (A B : List Fac) : List DistEntry :=
  List.insertionSort entryLe (pairEntries dist A B)

/-! ## Online geocoder (`src/generate_facility_map.py`, lines 54-83)

`FacilityMapper.geocode_location` first consults the on-disk cache keyed by
`f"{city}, {country}".strip().lower()`.  On a miss it queries Nominatim with
the full `"city, country"` string, falling back to `country` alone; each
external query can yield a location, yield nothing, or raise an exception
(network error).  A found location is written into the cache under the full
key.  The embedding returns the result, the updated cache, and the number of
external geocoding calls made. -/

/-- Outcome of one `self.geocoder.geocode(...)` call. -/
inductive GeoResult where
  | found (c : Coord)
  | notFound
  | raised
deriving DecidableEq, Repr

/-- The mutable `self.geocoding_cache` dictionary. -/
def GeoCache : Type := String → Option Coord

/-- `self.geocoding_cache[location_key] = result`. -/
def cacheInsert (cache : GeoCache) (k : String) (v : Coord) : GeoCache :=
  fun k' => if k' = k then some v else cache k'

/-- Python `str.lower()` (character-wise lowercasing). -/
def pyLower (s : String) : String :=
  ⟨s.data.map Char.toLower⟩

/-- Python `str.strip()`: remove leading and trailing whitespace. -/
def pyStrip (s : String) : String :=
  ⟨((s.data.dropWhile Char.isWhitespace).reverse.dropWhile
      Char.isWhitespace).reverse⟩

/-- `location_key = f"{city}, {country}".strip().lower()`. -/
def normalizeKey (city country : String) : String :=
  pyLower (pyStrip (city ++ ", " ++ country))

/-- `FacilityMapper.geocode_location`.  Components of the result:
the returned value (`None` on total failure), the cache after the call, and
how many external geocoding calls were made. -/
def geocode_location (g : String → GeoResult) (cache : GeoCache)
    (city country : String) : Option Coord × GeoCache × Nat :=
  let key := normalizeKey city country
  match cache key with
  | some cached => (some cached, cache, 0)
  | none =>
    match g (city ++ ", " ++ country) with
    | .found loc => (some loc, cacheInsert cache key loc, 1)
    | .raised => (none, cache, 1)
    | .notFound =>
      match g country with
      | .found loc => (some loc, cacheInsert cache key loc, 2)
      | .raised => (none, cache, 2)
      | .notFound => (none, cache, 2)

/-! ## Offline coordinate resolver
(`src/generate_facility_map_offline.py` lines 181-204; the same logic with a
slightly different table and offset range appears in
`src/modules/facility_mapping/facility_map_generator.py` lines 145-168)

`get_coordinates` normalizes the spreadsheet cells (`NaN` becomes `""`,
otherwise `strip().lower()`), then looks up `f"{city}, {country}"`, then the
bare city, then the bare country in the static table.  A country-only match
receives a pseudorandom offset drawn with `np.random.uniform(-2, 2)` (resp.
`random.uniform(-1.5, 1.5)` in the module version) on each axis; the two
drawn offsets are the parameters `o1`, `o2` of the embedding. -/

/-- `str(x).strip().lower() if pd.notna(x) else ""`; a `NaN` cell is `none`. -/
def pyNormCell : Option String → String
  | some s => pyLower (pyStrip s)
  | none => ""

/-- `OfflineFacilityMapper.get_coordinates` (and
`FacilityMapper.get_coordinates` of the module version), parameterised by the
static table `db` and the two drawn random offsets. -/
def get_coordinates (db : List (String × Coord)) (o1 o2 : ℚ)
    (city country : Option String) : Option Coord :=
  let c := pyNormCell city
  let k := pyNormCell country
  let location_key := c ++ ", " ++ k
  match db.lookup location_key with
  | some v => some v
  | none =>
    match db.lookup c with
    | some v => some v
    | none =>
      match db.lookup k with
      | some v => some { lat := v.lat + o1, lng := v.lng + o2 }
      | none => none

/-- The `COORDINATES_DB` table of `src/generate_facility_map_offline.py`
(lines 28-175).  The literal is split into slices of at most 22 entries
(concatenated below, in source order) purely to keep elaboration cheap;
the keys are pairwise distinct, so association-list lookup coincides with
Python dict lookup. -/

def coordinatesDbPart0 : List (String × Coord) := [
  ("vietnam", ⟨14.0583, 108.2772⟩),
  ("china", ⟨35.8617, 104.1954⟩),
  ("indonesia", ⟨-0.7893, 113.9213⟩),
  ("usa", ⟨37.0902, -95.7129⟩),
  ("thailand", ⟨15.8700, 100.9925⟩),
  ("cambodia", ⟨12.5657, 104.9910⟩),
  ("sri lanka", ⟨7.8731, 80.7718⟩),
  ("brazil", ⟨-14.2350, -51.9253⟩),
  ("italy", ⟨41.8719, 12.5674⟩),
  ("india", ⟨20.5937, 78.9629⟩),
  ("bangladesh", ⟨23.6850, 90.3563⟩),
  ("mexico", ⟨23.6345, -102.5528⟩),
  ("south korea", ⟨35.9078, 127.7669⟩),
  ("taiwan", ⟨23.6978, 120.9605⟩),
  ("philippines", ⟨12.8797, 121.7740⟩),
  ("pakistan", ⟨30.3753, 69.3451⟩),
  ("turkey", ⟨38.9637, 35.2433⟩),
  ("guatemala", ⟨15.7835, -90.2308⟩),
  ("honduras", ⟨15.2000, -86.2419⟩),
  ("nicaragua", ⟨12.2651, -85.2072⟩),
  ("dominican republic", ⟨18.7357, -70.1627⟩),
  ("el salvador", ⟨13.7942, -88.8965⟩)]

def coordinatesDbPart1 : List (String × Coord) := [
  ("morocco", ⟨31.7917, -7.0926⟩),
  ("tunisia", ⟨33.8869, 9.5375⟩),
  ("madagascar", ⟨-18.7669, 46.8691⟩),
  ("jordan", ⟨30.5852, 36.2384⟩),
  ("bulgaria", ⟨42.7339, 25.4858⟩),
  ("romania", ⟨45.9432, 24.9668⟩),
  ("moldova", ⟨47.4116, 28.3699⟩),
  ("ukraine", ⟨48.3794, 31.1656⟩),
  ("bosnia and herzegovina", ⟨43.9159, 17.6791⟩),
  ("serbia", ⟨44.0165, 21.0059⟩),
  ("japan", ⟨36.2048, 138.2529⟩),
  ("malaysia", ⟨4.2105, 101.9758⟩),
  ("laos", ⟨19.8563, 102.4955⟩),
  ("myanmar", ⟨21.9162, 95.9560⟩),
  ("ho chi minh city, vietnam", ⟨10.8231, 106.6297⟩),
  ("hanoi, vietnam", ⟨21.0285, 105.8542⟩),
  ("dong nai, vietnam", ⟨10.9467, 106.8434⟩),
  ("binh duong, vietnam", ⟨11.3254, 106.4775⟩),
  ("nam dinh, vietnam", ⟨20.4388, 106.1622⟩),
  ("vinh phuc, vietnam", ⟨21.3608, 105.6049⟩),
  ("long an, vietnam", ⟨10.6956, 106.2431⟩),
  ("hai duong, vietnam", ⟨20.9373, 106.3148⟩)]

def coordinatesDbPart2 : List (String × Coord) := [
  ("thai binh, vietnam", ⟨20.4463, 106.3365⟩),
  ("an giang, vietnam", ⟨10.3889, 105.4359⟩),
  ("can tho, vietnam", ⟨10.0452, 105.7469⟩),
  ("tien giang, vietnam", ⟨10.3587, 106.3617⟩),
  ("my tho, vietnam", ⟨10.3600, 106.3597⟩),
  ("tan uyen, vietnam", ⟨11.1520, 106.6226⟩),
  ("nhon trach, vietnam", ⟨10.8120, 106.8434⟩),
  ("duy xuyen district, vietnam", ⟨15.8021, 108.2208⟩),
  ("taipei city, vietnam", ⟨25.0330, 121.5654⟩),
  ("beijing, china", ⟨39.9042, 116.4074⟩),
  ("shanghai, china", ⟨31.2304, 121.4737⟩),
  ("guangzhou, china", ⟨23.1291, 113.2644⟩),
  ("shenzhen, china", ⟨22.5431, 114.0579⟩),
  ("dongguan, china", ⟨23.0209, 113.7518⟩),
  ("foshan, china", ⟨23.0218, 113.1064⟩),
  ("qingdao, china", ⟨36.0986, 120.3719⟩),
  ("xiamen, china", ⟨24.4798, 118.0819⟩),
  ("jiangmen, china", ⟨22.5751, 113.0946⟩),
  ("zhongshan, china", ⟨22.5167, 113.3833⟩),
  ("meizhou, china", ⟨24.2899, 116.1177⟩),
  ("yongzhou, china", ⟨26.4204, 111.6134⟩),
  ("shaoyang city, china", ⟨27.2418, 111.4689⟩)]

def coordinatesDbPart3 : List (String × Coord) := [
  ("zhan jiang city, china", ⟨21.2707, 110.3594⟩),
  ("zhongshan guangdong, china", ⟨22.5167, 113.3833⟩),
  ("jakarta, indonesia", ⟨-6.2088, 106.8456⟩),
  ("surabaya, indonesia", ⟨-7.2575, 112.7521⟩),
  ("bandung, indonesia", ⟨-6.9175, 107.6191⟩),
  ("bekasi, indonesia", ⟨-6.2383, 106.9756⟩),
  ("tangerang, indonesia", ⟨-6.1783, 106.6319⟩),
  ("grobogan, indonesia", ⟨-7.0584, 110.9158⟩),
  ("majalengka, indonesia", ⟨-6.8364, 108.2277⟩),
  ("sukabumi, indonesia", ⟨-6.9175, 106.9276⟩),
  ("cirebon, indonesia", ⟨-6.7063, 108.5571⟩),
  ("bangkok, thailand", ⟨13.7563, 100.5018⟩),
  ("chonburi, thailand", ⟨13.3611, 100.9847⟩),
  ("nakhon pathom, thailand", ⟨13.8199, 100.0625⟩),
  ("samut sakhon, thailand", ⟨13.5475, 100.2739⟩),
  ("samut prakan, thailand", ⟨13.5990, 100.5998⟩),
  ("pathum thani, thailand", ⟨14.0208, 100.5250⟩),
  ("phnom penh, cambodia", ⟨11.5564, 104.9282⟩),
  ("kandal, cambodia", ⟨11.4564, 104.9282⟩),
  ("koh kong, cambodia", ⟨11.6158, 102.9839⟩),
  ("colombo, sri lanka", ⟨6.9271, 79.8612⟩),
  ("katunayake, sri lanka", ⟨7.1697, 79.8841⟩)]

def coordinatesDbPart4 : List (String × Coord) := [
  ("seeduwa, sri lanka", ⟨7.1097, 79.8841⟩),
  ("biyagama, sri lanka", ⟨6.9544, 79.9772⟩),
  ("koggala, sri lanka", ⟨5.9900, 80.3233⟩),
  ("mirigama, sri lanka", ⟨7.2433, 80.1219⟩),
  ("mumbai, india", ⟨19.0760, 72.8777⟩),
  ("delhi, india", ⟨28.7041, 77.1025⟩),
  ("bangalore, india", ⟨12.9716, 77.5946⟩),
  ("chennai, india", ⟨13.0827, 80.2707⟩),
  ("mysore, india", ⟨12.2958, 76.6394⟩),
  ("tirpur, india", ⟨11.1085, 77.3411⟩),
  ("madurai, india", ⟨9.9252, 78.1198⟩),
  ("coimbatore, india", ⟨11.0168, 76.9558⟩),
  ("gudur, india", ⟨14.1489, 79.8492⟩),
  ("sao paulo, brazil", ⟨-23.5505, -46.6333⟩),
  ("rio de janeiro, brazil", ⟨-22.9068, -43.1729⟩),
  ("novo hamburgo, brazil", ⟨-29.6783, -51.1306⟩),
  ("sapiranga, brazil", ⟨-29.6364, -51.0069⟩),
  ("dois irmaos, brazil", ⟨-29.5800, -51.0856⟩),
  ("campo bom, brazil", ⟨-29.6789, -51.0533⟩),
  ("franca, brazil", ⟨-20.5386, -47.4006⟩),
  ("igrejinha, brazil", ⟨-29.5733, -50.7958⟩),
  ("tupa, brazil", ⟨-21.9344, -50.5136⟩)]

def coordinatesDbPart5 : List (String × Coord) := [
  ("milan, italy", ⟨45.4642, 9.1900⟩),
  ("rome, italy", ⟨41.9028, 12.4964⟩),
  ("florence, italy", ⟨43.7696, 11.2558⟩),
  ("montebelluna, italy", ⟨45.7753, 12.0478⟩),
  ("ancarano, italy", ⟨42.7575, 13.8019⟩),
  ("kilkis, italy", ⟨41.0833, 22.8833⟩),
  ("new york, usa", ⟨40.7128, -74.0060⟩),
  ("los angeles, usa", ⟨34.0522, -118.2437⟩),
  ("chicago, usa", ⟨41.8781, -87.6298⟩),
  ("woodburn, usa", ⟨45.1437, -122.8551⟩),
  ("rienzi, usa", ⟨34.8248, -88.3470⟩),
  ("frisco, usa", ⟨33.1507, -96.8236⟩),
  ("spokane, usa", ⟨47.6587, -117.4260⟩),
  ("seoul, south korea", ⟨37.5665, 126.9780⟩),
  ("busan, south korea", ⟨35.1796, 129.0756⟩),
  ("gyeonggi-do, south korea", ⟨37.4138, 127.5183⟩),
  ("taipei, taiwan", ⟨25.0330, 121.5654⟩),
  ("yun-lin hsien, taiwan", ⟨23.7081, 120.4315⟩),
  ("taraklia, moldova", ⟨46.1667, 28.2667⟩),
  ("villanueva, honduras", ⟨15.3167, -88.0167⟩)]

/-- `COORDINATES_DB`, assembled in source order. -/
def COORDINATES_DB : List (String × Coord) :=
  coordinatesDbPart0 ++ coordinatesDbPart1 ++ coordinatesDbPart2 ++ coordinatesDbPart3 ++ coordinatesDbPart4 ++ coordinatesDbPart5

/-! ## Facility-mapping run pipelines (claim C3)

`FacilityMapper.run` (`src/generate_facility_map.py` lines 278-306),
`OfflineFacilityMapper.run` (`src/generate_facility_map_offline.py` lines
429-454) and the module `FacilityMapper.run`
(`src/modules/facility_mapping/facility_map_generator.py` lines 417-450).
The record loading, coordinate resolution and map rendering are abstracted:
`resolve` stands for the per-record coordinate resolution
(`geocode_location` / `get_coordinates`), and the outcome records whether the
`"Error: ..."` message was printed (aborting before `map_obj.save`) and
whether the map was saved. -/

/-- The coordinate-resolved sublist of a record group, in order:
`add_coordinates` followed by `dropna(subset=['latitude', 'longitude'])`. -/
def resolvedRecords {α : Type} (resolve : α → Option Coord) (rs : List α) :
    List (α × Coord) :=
  rs.filterMap fun r => (resolve r).map fun c => (r, c)

/-- Outcome of one `run()` invocation. -/
structure RunOutcome where
  errorEmitted : Bool
  mapSaved : Bool
deriving DecidableEq, Repr

/-- `run()` of the two top-level scripts: after resolving both groups, abort
with an error if EITHER resolved group is empty
(`if len(...) == 0 or len(...) == 0`), otherwise create and save the map. -/
def scriptRun {α : Type} (resolve : α → Option Coord)
    (group1 group2 : List α) : RunOutcome :=
  let g1 := resolvedRecords resolve group1
  let g2 := resolvedRecords resolve group2
  if g1.length = 0 ∨ g2.length = 0 then ⟨true, false⟩ else ⟨false, true⟩

/-- Outcome of the module version's `run()`:
* `errorReturn` — one of the `"Error: ..."` messages is printed and `run`
  returns before `map_obj.save`;
* `keyErrorCrash` — `create_map` evaluates `df['latitude']` on a DataFrame
  that has no columns (a bare `pd.DataFrame()`) and the uncaught `KeyError`
  ends the run with no map and no designed error message;
* `mapSaved` — the map is created and saved. -/
inductive ModuleOutcome where
  | errorReturn
  | keyErrorCrash
  | mapSaved
deriving DecidableEq, Repr

/-- `run()` of the module version: abort if BOTH raw groups are empty
(`if len(components_df) == 0 and len(equipment_df) == 0`); each non-empty
raw group goes through `add_coordinates` (a frame that keeps its
`latitude`/`longitude` columns even with zero resolved rows), while an empty
raw group yields a bare columnless `pd.DataFrame()` (`none` here); abort if
both results have length zero (`== 0 and ... == 0`).  Then `create_map`
reads `df['latitude']` from both frames — a `KeyError` crash on a
columnless frame — and returns `None` (one more error return) only when
both lat lists are empty; otherwise the map is saved. -/
def moduleRun {α : Type} (resolve : α → Option Coord)
    (components equipment : List α) : ModuleOutcome :=
  if components.length = 0 ∧ equipment.length = 0 then .errorReturn
  else
    let c := if 0 < components.length
      then some (resolvedRecords resolve components) else none
    let e := if 0 < equipment.length
      then some (resolvedRecords resolve equipment) else none
    if (c.getD []).length = 0 ∧ (e.getD []).length = 0 then .errorReturn
    else
      match c, e with
      | some cr, some er =>
        if cr.length + er.length = 0 then .errorReturn else .mapSaved
      | _, _ => .keyErrorCrash

/-! ## Per-document extraction (claim C9)

`NikePDFExtractor.extract_pdf_data` (`src/scripts/pdf_extractor.py` lines
283-330) wraps the whole per-document extraction in `try/except`; the handler
builds a result dictionary with an `error` field — recomputing the file
metadata by calling `self.extract_file_metadata(file_path)` again, outside
any `try`.  `process_all_pdf_files` (lines 332-361) loops over the documents
with no `try` of its own, so an exception escaping `extract_pdf_data` aborts
the batch.  `extract_xls_data` (`src/scripts/xls_extractor.py` lines
101-157) has the same structure.  `metadata` embeds the fallible
`extract_file_metadata` step and `body` the rest of the extraction
(text extraction and analysis). -/

/-- A per-document result dictionary: either the full result or the
metadata together with the recorded `error` field. -/
inductive DocEntry (M R E : Type) where
  | ok (metadata : M) (result : R)
  | failed (metadata : M) (error : E)
deriving DecidableEq, Repr

/-- `extract_pdf_data` / `extract_xls_data`: run metadata extraction and the
extraction body inside `try`; on an exception, build the error entry — whose
own metadata call can raise again, escaping the handler. -/
def extract_pdf_data {Doc M R E : Type} (metadata : Doc → Except E M)
    (body : Doc → Except E R) (d : Doc) : Except E (DocEntry M R E) :=
  match metadata d with
  | .ok m =>
    match body d with
    | .ok r => .ok (.ok m r)
    | .error e =>
      match metadata d with
      | .ok m2 => .ok (.failed m2 e)
      | .error e2 => .error e2
  | .error e =>
    match metadata d with
    | .ok m2 => .ok (.failed m2 e)
    | .error e2 => .error e2

/-- `process_all_pdf_files`: process the documents in order; an exception
escaping `extract_pdf_data` propagates and ends the batch. -/
def process_all_pdf_files {Doc M R E : Type} (metadata : Doc → Except E M)
    (body : Doc → Except E R) : List Doc → Except E (List (DocEntry M R E))
  | [] => .ok []
  | d :: ds =>
    match extract_pdf_data metadata body d with
    | .error e => .error e
    | .ok entry =>
      match process_all_pdf_files metadata body ds with
      | .error e => .error e
      | .ok rest => .ok (entry :: rest)

/-! ## Keyword scanner (claim C2)

`NikeKeywordSentinel.scan_keywords` (`src/scripts/keyword_sentinel.py` lines
198-237) lowercases the text and each keyword and runs
`re.finditer(r'(.{0,50})' + re.escape(keyword) + r'(.{0,50})', text_lower)`;
the reported `count` is the number of matches found.  `re.finditer` yields
non-overlapping matches: the engine scans for the leftmost start position
admitting a match, the greedy `(.{0,50})` groups consume up to 50
non-newline characters before and after the keyword (`.` does not match a
newline), and the next scan resumes after the consumed trailing context.
The embedding makes that operational semantics explicit:

* the leftmost match start is `t1 - b1` where `t1` is the first keyword
  occurrence in the unscanned suffix and `b1` the largest legal lookback;
* the greedy before-group then stretches to the LAST keyword occurrence
  reachable within the 50-character non-newline window (`maxHit`);
* the trailing context consumes up to 50 further non-newline characters,
  swallowing any keyword occurrence that starts inside it.

Recursion is by fuel; one unit of fuel per match suffices because every
match consumes at least one character, so `scanCount` passes the text
length as fuel. -/

/-- Index of the first occurrence of `kw` in `l` (`none` if `kw` does not
occur). -/
def firstOccAux (kw : List Char) : List Char → Option Nat
  | [] => none
  | c :: rest =>
    if kw.isPrefixOf (c :: rest) then some 0
    else (firstOccAux kw rest).map (· + 1)

/-- Length of the maximal prefix of `l` containing no newline. -/
def nonNlRunLen : List Char → Nat
  | [] => 0
  | c :: rest => if c = '\n' then 0 else nonNlRunLen rest + 1

/-- The largest `b ≤ bound` such that `kw` occurs at offset `b` of `l`
(the greedy choice of the before-context group). -/
def maxHit (kw l : List Char) : Nat → Option Nat
  | 0 => if kw.isPrefixOf l then some 0 else none
  | b + 1 =>
    if kw.isPrefixOf (l.drop (b + 1)) then some (b + 1) else maxHit kw l b

/-- Number of `finditer` matches of `(.{0,50})kw(.{0,50})` in `suffix`,
with `fuel` bounding the number of matches still allowed. -/
def scanCountFuel (kw : List Char) : Nat → List Char → Nat
  | 0, _ => 0
  | fuel + 1, suffix =>
    match firstOccAux kw suffix with
    | none => 0
    | some t1 =>
      let b1 := min 50 (nonNlRunLen (suffix.take t1).reverse)
      let s := t1 - b1
      let bstar :=
        (maxHit kw (suffix.drop s) (min 50 (nonNlRunLen (suffix.drop s)))).getD 0
      let kwEnd := s + bstar + kw.length
      let a := min 50 (nonNlRunLen (suffix.drop kwEnd))
      1 + scanCountFuel kw fuel (suffix.drop (kwEnd + a))

/-- Number of `finditer` matches of the context pattern for `kw` in `text`:
the `count` value reported per keyword (`len(match_contexts)`). -/
def scanCount (kw text : List Char) : Nat :=
  scanCountFuel kw text.length text

/-- Number of positions of `text` at which `kw` occurs (the true occurrence
count the claim speaks about). -/
def occCount (kw : List Char) : List Char → Nat
  | [] => 0
  | c :: rest => (if kw.isPrefixOf (c :: rest) then 1 else 0) + occCount kw rest

/-- The `count` reported by `scan_keywords` for one keyword over one text:
both are lowercased first, then the context pattern is matched. -/
def scan_keywords_count (keyword text : String) : Nat :=
  scanCount (pyLower keyword).data (pyLower text).data

/-- A text with one `"ab"` per line: n keyword occurrences, each separated
from the next by a newline. -/
def repAB : Nat → List Char
  | 0 => []
  | n + 1 => 'a' :: 'b' :: '\n' :: repAB n

/-! ## Sentiment scoring (claim C5)

`NikeKeywordSentinel.analyze_sentiment_patterns`
(`src/scripts/keyword_sentinel.py` lines 239-296): over every stored context
of every match of a category, count occurrences of the positive and negative
indicator words in the lowercased `full_context` with `str.count`
(non-overlapping substring count), add 1 to the neutral score per context,
and report `(positive - negative) / (positive + negative + neutral)` (the
code displays it rounded to three decimals with `round(..., 3)`; the
rounding is a presentation step and the ratio is embedded exactly over ℚ).
A match item is represented by the list of its stored `full_context`
strings. -/

/-- Python `str.count`: number of non-overlapping occurrences of `needle`,
scanning left to right; `fuel` is at least the length of the haystack. -/
def pyCountAux (needle : List Char) : Nat → List Char → Nat
  | 0, _ => 0
  | _ + 1, [] => 0
  | fuel + 1, c :: rest =>
    if needle.isPrefixOf (c :: rest) then
      1 + pyCountAux needle fuel (rest.drop (needle.length - 1))
    else pyCountAux needle fuel rest

/-- Python `hay.count(needle)` for a non-empty needle. -/
def pyCount (needle hay : List Char) : Nat :=
  pyCountAux needle hay.length hay

/-- The `positive_indicators` list (lines 246-250). -/
def positive_indicators : List String := [
  "growth", "increase", "strong", "successful", "improved", "positive",
  "opportunity", "expansion", "benefit", "advantage", "outperformed",
  "exceeded", "solid", "robust", "healthy", "momentum"]

/-- The `negative_indicators` list (lines 252-256). -/
def negative_indicators : List String := [
  "decline", "decrease", "weak", "challenged", "negative", "risk",
  "uncertainty", "volatility", "pressure", "headwind", "impact",
  "concern", "difficulty", "obstacle", "threat", "disruption"]

/-- Total `str.count` score of one lowercased context against an indicator
word list (the inner `for indicator in ...` loops). -/
def indicatorScore (indicators : List String) (ctx : List Char) : Nat :=
  indicators.foldl (fun s ind => s + pyCount ind.data ctx) 0

/-- The accumulation loop of `analyze_sentiment_patterns` for one category:
`(positive_score, negative_score, neutral_score)` after walking every stored
context of every match item. -/
def sentiment_scores (ms : List (List String)) : Nat × Nat × Nat :=
  ms.foldl
    (fun acc ctxs =>
      ctxs.foldl
        (fun acc2 ctx =>
          (acc2.1 + indicatorScore positive_indicators (pyLower ctx).data,
           acc2.2.1 + indicatorScore negative_indicators (pyLower ctx).data,
           acc2.2.2 + 1))
        acc)
    (0, 0, 0)

/-- The reported `sentiment_ratio` of one category (exact, pre-rounding):
`(positive_score - negative_score) / total_score` when `total_score > 0`,
else `0`. -/
def sentiment_ratio (ms : List (List String)) : ℚ :=
  let s := sentiment_scores ms
  let total := s.1 + s.2.1 + s.2.2
  if 0 < total then ((s.1 : ℚ) - (s.2.1 : ℚ)) / (total : ℚ) else 0

/-- Specification-side positive score: the plain sum, over all stored
contexts, of the substring-occurrence counts of the positive wordlist. -/
def specScore (indicators : List String) (ms : List (List String)) : Nat :=
  (ms.flatten.map
    (fun ctx => indicatorScore indicators (pyLower ctx).data)).sum

theorem pairEntries_length (dist : Coord → Coord → ℚ) (A B : List Fac) :
    (pairEntries dist A B).length = A.length * B.length := by
  induction A with
  | nil => simp [pairEntries]
  | cons a A ih =>
    simp only [pairEntries, List.flatMap_cons, List.length_append, List.length_map] at ih ⊢
    rw [ih, List.length_cons, Nat.succ_mul, Nat.add_comm]

/-- Insertion of `a` never disturbs the relative order of the elements whose
key equals a fixed value `d`: the elements skipped over by `orderedInsert`
all have key strictly below `key a`. -/
theorem filter_orderedInsert (key : DistEntry → ℚ) (d : ℚ) (a : DistEntry) :
    ∀ l : List DistEntry,
      (List.orderedInsert (fun x y => key x ≤ key y) a l).filter
          (fun x => decide (key x = d)) =
        if key a = d then
          a :: l.filter (fun x => decide (key x = d))
        else
          l.filter (fun x => decide (key x = d)) := by
  intro l
  induction l with
  | nil =>
    by_cases ha : key a = d <;> simp [List.orderedInsert, List.filter_cons, ha]
  | cons b l ih =>
    by_cases hab : key a ≤ key b
    · simp only [List.orderedInsert, if_pos hab]
      by_cases ha : key a = d <;> simp [ha, List.filter_cons]
    · have hba : key b < key a := lt_of_not_le hab
      simp only [List.orderedInsert, if_neg hab]
      by_cases ha : key a = d
      · have hb : ¬ key b = d := by
          intro h
          rw [h, ha] at hba
          exact lt_irrefl d hba
        simp [List.filter_cons, hb, ih, ha]
      · by_cases hb : key b = d <;> simp [List.filter_cons, hb, ih, ha]

/-- Stability of the embedded sort: for every key value `d`, sorting does not
change the subsequence of entries whose `distance_km` equals `d`. -/
theorem filter_insertionSort (key : DistEntry → ℚ) (d : ℚ) :
    ∀ l : List DistEntry,
      (List.insertionSort (fun x y => key x ≤ key y) l).filter
          (fun x => decide (key x = d)) =
        l.filter (fun x => decide (key x = d)) := by
  intro l
  induction l with
  | nil => rfl
  | cons a l ih =>
    simp only [List.insertionSort]
    rw [filter_orderedInsert key d a]
    by_cases ha : key a = d <;> simp [ha, ih, List.filter_cons]

/-- C1: for disjoint non-empty record sets `A` (size m) and `B` (size n), and
any distance function, `calculate_distances` returns exactly m·n entries,
sorted non-decreasing by `distance_km`, and entries with equal distances keep
the original (A-index, B-index) enumeration order (stable sort). -/
theorem calculate_distances_ranking (dist : Coord → Coord → ℚ) (A B : List Fac)
    (hA : A ≠ []) (hB : B ≠ []) (hdisj : ∀ a ∈ A, a ∉ B) :
    (calculate_distances dist A B).length = A.length * B.length ∧
      (calculate_distances dist A B).Sorted entryLe ∧
      ∀ d : ℚ,
        (calculate_distances dist A B).filter
            (fun e => decide (e.distance_km = d)) =
          (pairEntries dist A B).filter (fun e => decide (e.distance_km = d)) := by
  refine ⟨?_, ?_, ?_⟩
  · rw [calculate_distances, List.length_insertionSort, pairEntries_length]
  · exact List.sorted_insertionSort entryLe (pairEntries dist A B)
  · intro d
    exact filter_insertionSort (fun e => e.distance_km) d (pairEntries dist A B)

theorem calculate_distances_ranking_witness :
    (calculate_distances (fun _ _ => (1112 : ℚ) / 10)
        [⟨"A", ⟨10, 10⟩⟩] [⟨"B", ⟨10, 11⟩⟩]).length = 1 :=
  (calculate_distances_ranking (fun _ _ => (1112 : ℚ) / 10)
      [⟨"A", ⟨10, 10⟩⟩] [⟨"B", ⟨10, 11⟩⟩]
      (by decide) (by decide) (by decide)).1

/-- C6: a geocode-cache hit returns the identical cached coordinates, makes
no external geocoding call, leaves the cache unchanged, and hence resolving
the same normalized key twice yields the same result. -/
theorem geocode_location_cache_hit (g : String → GeoResult) (cache : GeoCache)
    (city country : String) (c : Coord)
    (h : cache (normalizeKey city country) = some c) :
    geocode_location g cache city country = (some c, cache, 0) ∧
      (geocode_location g
          (geocode_location g cache city country).2.1 city country).1 =
        (geocode_location g cache city country).1 := by
  have h1 : geocode_location g cache city country = (some c, cache, 0) := by
    simp [geocode_location, h]
  exact ⟨h1, by rw [h1]; simp [geocode_location, h]⟩

theorem geocode_location_cache_hit_witness :
    geocode_location (fun _ => GeoResult.raised)
        (fun k => if k = "hanoi, vietnam" then some ⟨21, 105⟩ else none)
        "Hanoi" "Vietnam" =
      (some ⟨21, 105⟩,
        fun k => if k = "hanoi, vietnam" then some ⟨21, 105⟩ else none, 0) :=
  (geocode_location_cache_hit (fun _ => GeoResult.raised)
      (fun k => if k = "hanoi, vietnam" then some ⟨21, 105⟩ else none)
      "Hanoi" "Vietnam" ⟨21, 105⟩ (by decide)).1

/-- C7: when resolution totally fails on a cache miss — the `"city, country"`
query raises, or it yields nothing and the `country` fallback raises or
yields nothing — `geocode_location` returns `None` instead of raising and
leaves the cache unchanged (no negative result is cached). -/
theorem geocode_location_total_failure (g : String → GeoResult)
    (cache : GeoCache) (city country : String)
    (hmiss : cache (normalizeKey city country) = none)
    (hfail : g (city ++ ", " ++ country) = .raised ∨
      (g (city ++ ", " ++ country) = .notFound ∧
        (g country = .raised ∨ g country = .notFound))) :
    (geocode_location g cache city country).1 = none ∧
      (geocode_location g cache city country).2.1 = cache := by
  rcases hfail with h1 | ⟨h1, h2 | h2⟩
  · simp [geocode_location, hmiss, h1]
  · simp [geocode_location, hmiss, h1, h2]
  · simp [geocode_location, hmiss, h1, h2]

theorem geocode_location_total_failure_witness :
    (geocode_location (fun _ => GeoResult.notFound) (fun _ => none)
        "Atlantis" "Lemuria").1 = none :=
  (geocode_location_total_failure (fun _ => GeoResult.notFound) (fun _ => none)
      "Atlantis" "Lemuria" rfl (Or.inr ⟨rfl, Or.inr rfl⟩)).1

/-- C10: on a cache miss where the `"city, country"` query yields nothing but
the `country` fallback succeeds with `c`, `geocode_location` returns `c`,
stores `c` in the cache under the full normalized `"city, country"` key, and
every later resolution of that key is a cache hit returning `c` with no
further external call. -/
theorem geocode_location_country_fallback_cached (g : String → GeoResult)
    (cache : GeoCache) (city country : String) (c : Coord)
    (hmiss : cache (normalizeKey city country) = none)
    (h1 : g (city ++ ", " ++ country) = .notFound)
    (h2 : g country = .found c) :
    (geocode_location g cache city country).1 = some c ∧
      (geocode_location g cache city country).2.1
          (normalizeKey city country) = some c ∧
      geocode_location g (geocode_location g cache city country).2.1
          city country =
        (some c, (geocode_location g cache city country).2.1, 0) := by
  have hrun : geocode_location g cache city country =
      (some c, cacheInsert cache (normalizeKey city country) c, 2) := by
    simp [geocode_location, hmiss, h1, h2]
  rw [hrun]
  refine ⟨rfl, ?_, ?_⟩
  · simp [cacheInsert]
  · simp [geocode_location, cacheInsert]

theorem geocode_location_country_fallback_cached_witness :
    (geocode_location
        (fun q => if q = "Vietnam" then GeoResult.found ⟨14, 108⟩
          else GeoResult.notFound)
        (fun _ => none) "Unknown City" "Vietnam").1 = some ⟨14, 108⟩ :=
  (geocode_location_country_fallback_cached
      (fun q => if q = "Vietnam" then GeoResult.found ⟨14, 108⟩
        else GeoResult.notFound)
      (fun _ => none) "Unknown City" "Vietnam" ⟨14, 108⟩ rfl
      (by decide) (by decide)).1

/-- C4: the offline resolver tries the static table in exactly the priority
order `"city, country"`, then bare city, then bare country: an exact
`"city, country"` entry is always returned (independently of the drawn
offsets and of any country-only entry); with no such entry a bare-city entry
is returned; with neither, a country entry is returned (with the offset
applied); with none of the three the lookup fails. -/
theorem get_coordinates_priority (db : List (String × Coord)) (o1 o2 : ℚ)
    (city country : Option String) :
    (∀ v, db.lookup (pyNormCell city ++ ", " ++ pyNormCell country) = some v →
      get_coordinates db o1 o2 city country = some v) ∧
    (db.lookup (pyNormCell city ++ ", " ++ pyNormCell country) = none →
      ∀ v, db.lookup (pyNormCell city) = some v →
        get_coordinates db o1 o2 city country = some v) ∧
    (db.lookup (pyNormCell city ++ ", " ++ pyNormCell country) = none →
      db.lookup (pyNormCell city) = none →
        ∀ v, db.lookup (pyNormCell country) = some v →
          get_coordinates db o1 o2 city country =
            some ⟨v.lat + o1, v.lng + o2⟩) ∧
    (db.lookup (pyNormCell city ++ ", " ++ pyNormCell country) = none →
      db.lookup (pyNormCell city) = none →
        db.lookup (pyNormCell country) = none →
          get_coordinates db o1 o2 city country = none) := by
  refine ⟨?_, ?_, ?_, ?_⟩
  · intro v h
    simp [get_coordinates, h]
  · intro h v h2
    simp [get_coordinates, h, h2]
  · intro h h2 v h3
    simp [get_coordinates, h, h2, h3]
  · intro h h2 h3
    simp [get_coordinates, h, h2, h3]

theorem get_coordinates_priority_witness :
    get_coordinates COORDINATES_DB 1 1 (some "Hanoi") (some "Vietnam") =
      some ⟨21.0285, 105.8542⟩ :=
  (get_coordinates_priority COORDINATES_DB 1 1
      (some "Hanoi") (some "Vietnam")).1 ⟨21.0285, 105.8542⟩ rfl

/-- C8: on the static table of the offline script, an input matching only a
country-level entry is resolved to that entry's coordinates shifted by the
two drawn offsets — which are at most 2 degrees in magnitude on each axis
when the offsets come from `np.random.uniform(-2, 2)` — while an input with
an exact `"city, country"` entry is returned unmodified. -/
theorem get_coordinates_country_offset (o1 o2 : ℚ)
    (city country : Option String) (v : Coord)
    (ho1l : -2 ≤ o1) (ho1r : o1 ≤ 2) (ho2l : -2 ≤ o2) (ho2r : o2 ≤ 2) :
    (COORDINATES_DB.lookup
        (pyNormCell city ++ ", " ++ pyNormCell country) = none →
      COORDINATES_DB.lookup (pyNormCell city) = none →
        COORDINATES_DB.lookup (pyNormCell country) = some v →
          ∃ r, get_coordinates COORDINATES_DB o1 o2 city country = some r ∧
            r.lat = v.lat + o1 ∧ r.lng = v.lng + o2 ∧
            |r.lat - v.lat| ≤ 2 ∧ |r.lng - v.lng| ≤ 2) ∧
    (COORDINATES_DB.lookup
        (pyNormCell city ++ ", " ++ pyNormCell country) = some v →
      get_coordinates COORDINATES_DB o1 o2 city country = some v) := by
  constructor
  · intro h h2 h3
    refine ⟨⟨v.lat + o1, v.lng + o2⟩, ?_, rfl, rfl, ?_, ?_⟩
    · simp [get_coordinates, h, h2, h3]
    · rw [show v.lat + o1 - v.lat = o1 by ring]
      exact abs_le.mpr ⟨ho1l, ho1r⟩
    · rw [show v.lng + o2 - v.lng = o2 by ring]
      exact abs_le.mpr ⟨ho2l, ho2r⟩
  · intro h
    simp [get_coordinates, h]

theorem get_coordinates_country_offset_witness :
    ∃ r, get_coordinates COORDINATES_DB 1 (-1)
        (some "Unknown City") (some "Vietnam") = some r ∧
      r.lat = (14.0583 : ℚ) + 1 ∧ r.lng = (108.2772 : ℚ) + (-1) ∧
      |r.lat - (14.0583 : ℚ)| ≤ 2 ∧ |r.lng - (108.2772 : ℚ)| ≤ 2 :=
  (get_coordinates_country_offset 1 (-1)
      (some "Unknown City") (some "Vietnam") ⟨14.0583, 108.2772⟩
      (by norm_num) (by norm_num) (by norm_num) (by norm_num)).1
    rfl rfl rfl

/-- C3 counterexample: in the module pipeline a run whose first category is
non-empty but resolves to zero records (so its DataFrame keeps the
`latitude` column, with zero rows) while the other category has resolved
records still creates and saves a map with no error, so an empty resolved
subset on one side is not fatal there — the claim fails on
`src/modules/facility_mapping/facility_map_generator.py`. -/
theorem moduleRun_single_empty_saves_map :
    resolvedRecords (fun n => if n = 1 then some ⟨0, 0⟩ else none) [0] = [] ∧
      moduleRun (fun n => if n = 1 then some ⟨0, 0⟩ else none) [0] [1] =
        .mapSaved := by
  constructor <;> rfl

/-- Characterization of the module `run()`: the designed error return
happens exactly when both resolved subsets are empty; otherwise a raw-empty
group crashes `create_map` with a `KeyError`, and otherwise the map is
saved. -/
theorem moduleRun_eq {α : Type} (resolve : α → Option Coord)
    (components equipment : List α) :
    moduleRun resolve components equipment =
      if (resolvedRecords resolve components).length = 0 ∧
          (resolvedRecords resolve equipment).length = 0 then
        ModuleOutcome.errorReturn
      else if components.length = 0 ∨ equipment.length = 0 then
        ModuleOutcome.keyErrorCrash
      else ModuleOutcome.mapSaved := by
  have h0 : resolvedRecords resolve ([] : List α) = [] := rfl
  by_cases hc : components = [] <;> by_cases he : equipment = []
  · subst hc; subst he
    simp [moduleRun, h0]
  · subst hc
    have he2 : 0 < equipment.length := List.length_pos.mpr he
    have he3 : ¬equipment.length = 0 := Nat.pos_iff_ne_zero.mp he2
    by_cases hre : (resolvedRecords resolve equipment).length = 0 <;>
      simp [moduleRun, h0, he2, he3, hre]
  · subst he
    have hc2 : 0 < components.length := List.length_pos.mpr hc
    have hc3 : ¬components.length = 0 := Nat.pos_iff_ne_zero.mp hc2
    by_cases hrc : (resolvedRecords resolve components).length = 0 <;>
      simp [moduleRun, h0, hc2, hc3, hrc]
  · have hc2 : 0 < components.length := List.length_pos.mpr hc
    have he2 : 0 < equipment.length := List.length_pos.mpr he
    have hc3 : ¬components.length = 0 := Nat.pos_iff_ne_zero.mp hc2
    have he3 : ¬equipment.length = 0 := Nat.pos_iff_ne_zero.mp he2
    by_cases hrc : (resolvedRecords resolve components).length = 0 <;>
      by_cases hre : (resolvedRecords resolve equipment).length = 0
    · simp [moduleRun, hc2, he2, hc3, he3, hrc, hre]
    · have hsum : ¬((resolvedRecords resolve components).length +
          (resolvedRecords resolve equipment).length = 0) := by omega
      simp [moduleRun, hc2, he2, hc3, he3, hrc, hre, hsum]
    · have hsum : ¬((resolvedRecords resolve components).length +
          (resolvedRecords resolve equipment).length = 0) := by omega
      simp [moduleRun, hc2, he2, hc3, he3, hrc, hre, hsum]
    · have hsum : ¬((resolvedRecords resolve components).length +
          (resolvedRecords resolve equipment).length = 0) := by omega
      simp [moduleRun, hc2, he2, hc3, he3, hrc, hre, hsum]

/-- C3 (amended): in the two top-level mapper scripts, emptiness of either
resolved category subset is the one fatal condition — the run emits the
error and stops before saving a map exactly when one of the two resolved
subsets is empty, and saves the map otherwise.  The module pipeline instead
returns with its designed error message exactly when BOTH resolved subsets
are empty; when one raw group is empty and the other resolves to at least
one record it crashes with an uncaught `KeyError` on the columnless
DataFrame inside `create_map` (no map, no designed error message); and when
both raw groups are non-empty and at least one record resolves it saves a
map — even if one resolved subset is empty. -/
theorem run_fatal_condition {α : Type} (resolve : α → Option Coord)
    (group1 group2 components equipment : List α) :
    (scriptRun resolve group1 group2 = ⟨true, false⟩ ↔
      (resolvedRecords resolve group1 = [] ∨
        resolvedRecords resolve group2 = [])) ∧
    (scriptRun resolve group1 group2 = ⟨false, true⟩ ↔
      ¬(resolvedRecords resolve group1 = [] ∨
        resolvedRecords resolve group2 = [])) ∧
    (moduleRun resolve components equipment = .errorReturn ↔
      (resolvedRecords resolve components = [] ∧
        resolvedRecords resolve equipment = [])) ∧
    (moduleRun resolve components equipment = .keyErrorCrash ↔
      ((components = [] ∧ resolvedRecords resolve equipment ≠ []) ∨
        (equipment = [] ∧ resolvedRecords resolve components ≠ []))) ∧
    (moduleRun resolve components equipment = .mapSaved ↔
      (components ≠ [] ∧ equipment ≠ [] ∧
        ¬(resolvedRecords resolve components = [] ∧
          resolvedRecords resolve equipment = []))) := by
  have hc0 : components = [] → resolvedRecords resolve components = [] :=
    fun h => by rw [h]; rfl
  have he0 : equipment = [] → resolvedRecords resolve equipment = [] :=
    fun h => by rw [h]; rfl
  refine ⟨?_, ?_, ?_, ?_, ?_⟩
  · rw [scriptRun]
    split
    · simp_all [List.length_eq_zero]
    · simp_all [List.length_eq_zero]
  · rw [scriptRun]
    split
    · simp_all [List.length_eq_zero]
    · simp_all [List.length_eq_zero]
  · rw [moduleRun_eq]
    split_ifs with h1 h2
    · exact iff_of_true rfl
        ⟨List.length_eq_zero.mp h1.1, List.length_eq_zero.mp h1.2⟩
    · exact iff_of_false (by simp) fun h =>
        h1 ⟨List.length_eq_zero.mpr h.1, List.length_eq_zero.mpr h.2⟩
    · exact iff_of_false (by simp) fun h =>
        h1 ⟨List.length_eq_zero.mpr h.1, List.length_eq_zero.mpr h.2⟩
  · rw [moduleRun_eq]
    split_ifs with h1 h2
    · refine iff_of_false (by simp) fun h => ?_
      rcases h with ⟨h3, h4⟩ | ⟨h3, h4⟩
      · exact h4 (List.length_eq_zero.mp h1.2)
      · exact h4 (List.length_eq_zero.mp h1.1)
    · refine iff_of_true rfl ?_
      rcases h2 with h3 | h3
      · have hcz : components = [] := List.length_eq_zero.mp h3
        refine Or.inl ⟨hcz, fun hre => h1 ⟨?_, ?_⟩⟩
        · exact List.length_eq_zero.mpr (hc0 hcz)
        · exact List.length_eq_zero.mpr hre
      · have hez : equipment = [] := List.length_eq_zero.mp h3
        refine Or.inr ⟨hez, fun hrc => h1 ⟨?_, ?_⟩⟩
        · exact List.length_eq_zero.mpr hrc
        · exact List.length_eq_zero.mpr (he0 hez)
    · refine iff_of_false (by simp) fun h => ?_
      rcases h with ⟨h3, _⟩ | ⟨h3, _⟩
      · exact h2 (Or.inl (by simp [h3]))
      · exact h2 (Or.inr (by simp [h3]))
  · rw [moduleRun_eq]
    split_ifs with h1 h2
    · exact iff_of_false (by simp) fun h =>
        h.2.2 ⟨List.length_eq_zero.mp h1.1, List.length_eq_zero.mp h1.2⟩
    · refine iff_of_false (by simp) fun h => ?_
      rcases h2 with h3 | h3
      · exact h.1 (List.length_eq_zero.mp h3)
      · exact h.2.1 (List.length_eq_zero.mp h3)
    · exact iff_of_true rfl
        ⟨fun h => h2 (Or.inl (by simp [h])),
         fun h => h2 (Or.inr (by simp [h])),
         fun h => h1 ⟨List.length_eq_zero.mpr h.1,
           List.length_eq_zero.mpr h.2⟩⟩

/-- C9 counterexample: a document whose file-metadata step raises makes the
error handler of `extract_pdf_data` raise again, so the batch aborts with no
result entry for that document and the remaining documents are never
processed — one failing document does abort the batch. -/
theorem process_all_metadata_failure_aborts :
    @process_all_pdf_files Nat Unit Unit String
        (fun d => if d = 0 then .error "stat failed" else .ok ())
        (fun _ => .ok ()) [0, 1] = .error "stat failed" := rfl

/-- C9 (amended): an error raised by the extraction body of one document is
caught and recorded as the error field of that document's own result entry,
and the batch goes on to the remaining documents; but when the document's
metadata step itself fails, the handler's second metadata call raises again
and the batch aborts. -/
theorem extract_error_recorded_and_batch_continues {Doc M R E : Type}
    (metadata : Doc → Except E M) (body : Doc → Except E R) (d : Doc)
    (ds : List Doc) (m : M) (e : E) :
    (metadata d = .ok m → body d = .error e →
      extract_pdf_data metadata body d = .ok (.failed m e)) ∧
    (∀ entry, extract_pdf_data metadata body d = .ok entry →
      process_all_pdf_files metadata body (d :: ds) =
        (process_all_pdf_files metadata body ds).map
          fun rest => entry :: rest) := by
  constructor
  · intro hm hb
    simp [extract_pdf_data, hm, hb]
  · intro entry he
    rw [process_all_pdf_files, he]
    cases process_all_pdf_files metadata body ds <;> rfl

theorem extract_error_recorded_witness :
    @extract_pdf_data Nat Unit Unit String
        (fun _ => .ok ()) (fun _ => .error "bad page") 0 =
      .ok (.failed () "bad page") :=
  (extract_error_recorded_and_batch_continues
      (fun _ => .ok ()) (fun _ => .error "bad page") 0 [] () "bad page").1
    rfl rfl

/-- The number of `"ab\n"` blocks is the length divided by three. -/
theorem repAB_length : ∀ n, (repAB n).length = 3 * n := by
  intro n
  induction n with
  | zero => rfl
  | succ n ih =>
    show (repAB n).length + 1 + 1 + 1 = 3 * (n + 1)
    omega

/-- Lowercasing leaves the already-lowercase family texts unchanged. -/
theorem pyLower_repAB : ∀ n, (pyLower ⟨repAB n⟩).data = repAB n := by
  intro n
  induction n with
  | zero => rfl
  | succ n ih =>
    show 'a'.toLower :: 'b'.toLower :: '\n'.toLower ::
        (repAB n).map Char.toLower = repAB (n + 1)
    have h : (repAB n).map Char.toLower = repAB n := ih
    rw [h]
    rfl

/-- Scanning the rest of the family text after a match: each remaining
block contributes exactly one match (the newline separators stop the
context windows from swallowing the next occurrence). -/
theorem scanCountFuel_repAB_tail : ∀ (k f : Nat), 3 * k + 1 ≤ f →
    scanCountFuel ['a', 'b'] f ('\n' :: repAB k) = k := by
  intro k
  induction k with
  | zero =>
    intro f hf
    cases f with
    | zero => omega
    | succ f => rfl
  | succ k ih =>
    intro f hf
    cases f with
    | zero => omega
    | succ f =>
      have h1 : scanCountFuel ['a', 'b'] (f + 1) ('\n' :: repAB (k + 1)) =
          1 + scanCountFuel ['a', 'b'] f ('\n' :: repAB k) := rfl
      rw [h1, ih f (by omega)]
      omega

/-- The family text contains exactly `n` occurrences of the keyword. -/
theorem occCount_repAB : ∀ n, occCount ['a', 'b'] (repAB n) = n := by
  intro n
  induction n with
  | zero => rfl
  | succ n ih =>
    show 1 + (0 + (0 + occCount ['a', 'b'] (repAB n))) = n + 1
    rw [ih]
    omega

/-- C2 counterexample: the keyword `"ab"` occurs 5 times in
`"ab ab ab ab ab"`, but `scan_keywords` reports `count = 1` for it: the
greedy 50-character trailing context of the first match swallows the
remaining four occurrences, so the reported count is NOT the number of
case-insensitive occurrences. -/
theorem scan_keywords_count_close_occurrences :
    occCount (pyLower "ab").data (pyLower "ab ab ab ab ab").data = 5 ∧
      scan_keywords_count "ab" "ab ab ab ab ab" = 1 := by
  constructor <;> decide

/-- C2 (amended): the reported `count` equals the number of non-overlapping
matches of the context pattern `(.{0,50})keyword(.{0,50})`; an occurrence
beginning inside the up-to-50-character trailing context of the previous
match is absorbed by it and not counted, so closely spaced occurrences are
undercounted, while occurrences separated by a newline (or by more than 50
characters) are all counted — a text with the keyword on each of its `n`
lines yields `count = n`, matching its `n` occurrences. -/
theorem scan_keywords_count_newline_separated (n : Nat) :
    scan_keywords_count "ab" ⟨repAB n⟩ = n ∧
      occCount ['a', 'b'] (repAB n) = n := by
  refine ⟨?_, occCount_repAB n⟩
  show scanCount (pyLower "ab").data (pyLower ⟨repAB n⟩).data = n
  have hkw : (pyLower "ab").data = ['a', 'b'] := rfl
  rw [hkw, pyLower_repAB n]
  show scanCountFuel ['a', 'b'] (repAB n).length (repAB n) = n
  rw [repAB_length n]
  cases n with
  | zero => rfl
  | succ n =>
    have h3 : 3 * (n + 1) = 3 * n + 2 + 1 := by ring
    rw [h3]
    have h1 : scanCountFuel ['a', 'b'] (3 * n + 2 + 1) (repAB (n + 1)) =
        1 + scanCountFuel ['a', 'b'] (3 * n + 2) ('\n' :: repAB n) := rfl
    rw [h1, scanCountFuel_repAB_tail n (3 * n + 2) (by omega)]
    omega

/-- Unrolling the per-context accumulation loop of one match item. -/
theorem sentiment_inner_foldl (ctxs : List String) :
    ∀ acc : Nat × Nat × Nat,
      ctxs.foldl
        (fun acc2 ctx =>
          (acc2.1 + indicatorScore positive_indicators (pyLower ctx).data,
           acc2.2.1 + indicatorScore negative_indicators (pyLower ctx).data,
           acc2.2.2 + 1))
        acc =
      (acc.1 + (ctxs.map
          (fun ctx => indicatorScore positive_indicators (pyLower ctx).data)).sum,
       acc.2.1 + (ctxs.map
          (fun ctx => indicatorScore negative_indicators (pyLower ctx).data)).sum,
       acc.2.2 + ctxs.length) := by
  induction ctxs with
  | nil => intro acc; simp
  | cons c cs ih =>
    intro acc
    simp only [List.foldl_cons, List.map_cons, List.sum_cons, List.length_cons, ih]
    refine Prod.ext ?_ (Prod.ext ?_ ?_) <;> simp <;> omega

/-- The three accumulated scores are the plain sums over all stored
contexts: positive and negative indicator counts plus one neutral point per
context. -/
theorem sentiment_scores_eq (ms : List (List String)) :
    sentiment_scores ms =
      (specScore positive_indicators ms, specScore negative_indicators ms,
        ms.flatten.length) := by
  rw [sentiment_scores]
  suffices h : ∀ acc : Nat × Nat × Nat,
      ms.foldl
        (fun acc ctxs =>
          ctxs.foldl
            (fun acc2 ctx =>
              (acc2.1 + indicatorScore positive_indicators (pyLower ctx).data,
               acc2.2.1 + indicatorScore negative_indicators (pyLower ctx).data,
               acc2.2.2 + 1))
            acc)
        acc =
      (acc.1 + specScore positive_indicators ms,
       acc.2.1 + specScore negative_indicators ms,
       acc.2.2 + ms.flatten.length) by
    simpa using h (0, 0, 0)
  induction ms with
  | nil => intro acc; simp [specScore]
  | cons m ms ih =>
    intro acc
    simp only [List.foldl_cons, sentiment_inner_foldl m acc, ih, specScore,
      List.flatten_cons, List.map_append, List.sum_append, List.length_append,
      List.map_cons, List.sum_cons]
    refine Prod.ext ?_ (Prod.ext ?_ ?_) <;> simp <;> omega

/-- C5: for every category input, the reported `sentiment_ratio` is the
normalized ratio `(positive - negative) / (positive + negative + neutral)`,
where positive and negative are the substring-occurrence counts of the fixed
indicator wordlists over the stored contexts and neutral is the number of
stored contexts; with no stored contexts the ratio is 0. -/
theorem sentiment_ratio_formula (ms : List (List String)) :
    (ms.flatten ≠ [] →
      sentiment_ratio ms =
        ((specScore positive_indicators ms : ℚ) -
          (specScore negative_indicators ms : ℚ)) /
        ((specScore positive_indicators ms : ℚ) +
          (specScore negative_indicators ms : ℚ) +
          (ms.flatten.length : ℚ))) ∧
    (ms.flatten = [] → sentiment_ratio ms = 0) := by
  rw [sentiment_ratio, sentiment_scores_eq]
  dsimp only
  constructor
  · intro hne
    have hlen : 0 < ms.flatten.length := List.length_pos.mpr hne
    rw [if_pos (by omega)]
    push_cast
    ring
  · intro he
    have h1 : specScore positive_indicators ms = 0 := by
      simp [specScore, he]
    have h2 : specScore negative_indicators ms = 0 := by
      simp [specScore, he]
    rw [he, h1, h2]
    simp

theorem sentiment_ratio_formula_witness :
    sentiment_ratio [["growth risk"]] =
      ((specScore positive_indicators [["growth risk"]] : ℚ) -
        (specScore negative_indicators [["growth risk"]] : ℚ)) /
      ((specScore positive_indicators [["growth risk"]] : ℚ) +
        (specScore negative_indicators [["growth risk"]] : ℚ) +
        (([["growth risk"]] : List (List String)).flatten.length : ℚ)) :=
  (sentiment_ratio_formula [["growth risk"]]).1 (by decide)
